import Mathlib

/-!
Shallow embedding of the Yacht Propulsion Selector engine (src/app.py).

Python floats are modelled as exact real numbers; Python strings as Lean
strings, with `str.lower()` / `str.strip()` modelled by the executable
functions `pyLower` / `pyStrip` below.  Fallible code (`raise ValueError`)
is modelled with `Except String`.
-/

/-- Model of Python's ASCII `str.lower()` on one character. -/
def pyCharLower (c : Char) : Char :=
  if 65 ≤ c.toNat ∧ c.toNat ≤ 90 then Char.ofNat (c.toNat + 32) else c

/-- Model of Python `str.lower()` (the hull strings involved are ASCII). -/
def pyLower (s : String) : String := ⟨s.data.map pyCharLower⟩

/-- Whitespace test used by Python `str.strip()`. -/
def pySpace (c : Char) : Bool :=
  c == ' ' || c == '\t' || c == '\n' || c == '\r' || c == '\x0b' || c == '\x0c'

/-- Model of Python `str.strip()`: drop whitespace from both ends. -/
def pyStrip (s : String) : String :=
  ⟨((s.data.dropWhile pySpace).reverse.dropWhile pySpace).reverse⟩

noncomputable section

/-- Model of Python `round(x, n)`: round to `n` decimal digits.  Python rounds
halves to even on binary floats; this model rounds halves up.  The rounded
values appear only in display fields and no claim depends on one at an exact
half. -/
def pyRound (x : ℝ) (n : ℕ) : ℝ := ((round (x * 10 ^ n) : ℤ) : ℝ) / 10 ^ n

/-- Model of Python `int(x)` on a float: truncation toward zero. -/
def pyInt (x : ℝ) : ℤ := if 0 ≤ x then ⌊x⌋ else ⌈x⌉

/-- Model of Python float division: raises `ZeroDivisionError` on a zero
denominator, as the divisions of src/app.py lines 151, 158, 160 and 161 can.
Divisions whose denominator is provably nonzero in every execution (the
constant in `hp_to_kw`, the `10^n` in `pyRound`, and `max(budget, 1.0)` in
the score) stay total real division. -/
def pyDiv (a b : ℝ) : Except String ℝ :=
  if b = 0 then Except.error "ZeroDivisionError: float division by zero"
  else Except.ok (a / b)

/-- Engine catalog entry (src/app.py lines 16-26). -/
structure EngineRecord where
  engine_model : String
  manufacturer : String
  power_kw : ℝ
  rated_rpm : ℝ
  dry_weight_kg : ℝ
  fuel : String
  length_mm : ℤ
  width_mm : ℤ
  height_mm : ℤ
  price_usd_est : ℝ

/-- Gearbox catalog entry (src/app.py lines 28-33). -/
structure GearboxRecord where
  name : String
  ratio_options : List ℝ
  max_input_kw_est : ℝ
  max_input_rpm : ℝ
  price_usd_est : ℝ

/-- The static engine catalog `ENGINE_CATALOG` (src/app.py lines 16-26). -/
def ENGINE_CATALOG : List EngineRecord :=
  [⟨"D6-480", "Volvo Penta", 353, 3500, 900, "diesel", 1290, 750, 900, 75000⟩,
   ⟨"D8-600", "Volvo Penta", 441, 3000, 1200, "diesel", 1500, 850, 980, 98000⟩,
   ⟨"C12.9", "Caterpillar", 745, 2300, 1550, "diesel", 1700, 900, 1200, 165000⟩,
   ⟨"QSB6.7", "Cummins", 410, 3000, 650, "diesel", 1200, 700, 900, 65000⟩,
   ⟨"QSC8.3", "Cummins", 600, 2600, 950, "diesel", 1350, 760, 980, 92000⟩,
   ⟨"6LY-440", "Yanmar", 324, 3300, 620, "diesel", 1100, 650, 820, 52000⟩,
   ⟨"12V2000", "MTU", 1200, 2450, 2300, "diesel", 2300, 1100, 1400, 300000⟩,
   ⟨"8V2000", "MTU", 900, 2450, 1900, "diesel", 2100, 1050, 1350, 240000⟩]

/-- The static gearbox catalog `GEARBOX_CATALOG` (src/app.py lines 28-33). -/
def GEARBOX_CATALOG : List GearboxRecord :=
  [⟨"ZF 45A", [1.5, 1.75, 2.0, 2.5, 3.0], 600, 3500, 18000⟩,
   ⟨"ZF 63A", [1.5, 1.75, 2.0, 2.5, 3.0, 3.5], 1000, 3000, 30000⟩,
   ⟨"Twin Disc MGX", [1.5, 2.0, 2.5, 3.0, 3.5, 4.0], 1200, 3500, 35000⟩]

/-- The `BoatSpecs` dataclass (src/app.py lines 38-49). -/
structure BoatSpecs where
  hull_type : String
  displacement_tonnes : ℝ
  target_speed_kn : ℝ
  shafts : ℤ
  fuel : String := "diesel"
  budget_usd : ℝ := 1e9
  max_engine_length_mm : ℤ := 10 ^ 9
  max_engine_weight_kg : ℝ := 10 ^ 9
  desired_prop_rpm : Option ℤ := none
  power_margin : ℝ := 0.15

/-- `kw_to_hp` (src/app.py lines 51-52). -/
def kw_to_hp (kw : ℝ) : ℝ := kw * 1.34102209

/-- `hp_to_kw` (src/app.py lines 54-55). -/
def hp_to_kw (hp : ℝ) : ℝ := hp / 1.34102209

/-- The semi-displacement blend factor `t = min(max((V - 12) / (30 - 12), 0.0), 1.0)`
(src/app.py line 93). -/
def blend_t (V : ℝ) : ℝ := min (max ((V - 12) / (30 - 12)) 0.0) 1.0

/-- `estimate_total_power_kw` (src/app.py lines 57-98).  Python `D ** (2/3)` is the
real power `D ^ ((2:ℝ)/3)` and `V ** 3` the monomial `V ^ 3`; the `raise ValueError`
branch is the `Except.error` case.  Python computes `hp_disp` eagerly at line 82
even when the planing branch is taken; for `D < 0` that Python value is complex
(no exception) while the model's is real, but it is consumed only by the
displacement and semi branches, so the model agrees with the source on every
branch that uses it, and statements about negative `D` are made on the planing
branch only. -/
def estimate_total_power_kw (spec : BoatSpecs) : Except String ℝ :=
  let D := spec.displacement_tonnes
  let V := spec.target_speed_kn
  let W_lb := D * 2204.62
  let hull := pyLower (pyStrip spec.hull_type)
  let admiralty_C : ℝ := 130.0
  let crouch_C : ℝ := 185.0
  let hp_disp := D ^ ((2 : ℝ) / 3) * V ^ (3 : ℕ) / admiralty_C
  let hp_plan := W_lb * (V / crouch_C) ^ (2 : ℕ)
  if hull = "displacement" then
    Except.ok (hp_to_kw hp_disp)
  else if hull = "planing" then
    Except.ok (hp_to_kw hp_plan)
  else if hull = "semi-displacement" ∨ hull = "semi" ∨ hull = "semi displacement" then
    let t := blend_t V
    Except.ok (hp_to_kw ((1 - t) * hp_disp + t * hp_plan))
  else
    Except.error "hull_type must be: displacement, semi-displacement, or planing"

/-- `choose_target_prop_rpm` (src/app.py lines 100-114).  Note: unlike the power
estimate, this normalizes the hull string with `lower()` only (no `strip()`). -/
def choose_target_prop_rpm (spec : BoatSpecs) : ℤ :=
  match spec.desired_prop_rpm with
  | some r => r
  | none =>
    let D := spec.displacement_tonnes
    let hull := pyLower spec.hull_type
    if hull = "displacement" then
      if D < 30 then 900 else 750
    else if hull = "semi-displacement" ∨ hull = "semi" ∨ hull = "semi displacement" then
      if D < 30 then 1100 else 950
    else if hull = "planing" then
      if D < 30 then 1300 else 1150
    else 1000

/-- Accumulator loop of Python `min(options, key=lambda x: abs(x - ratio))`:
the running minimum is replaced only on a strict decrease of the key, so the
first element attaining the minimal key wins. -/
def min_from (ratio : ℝ) (acc : ℝ) : List ℝ → ℝ
  | [] => acc
  | y :: ys => min_from ratio (if |y - ratio| < |acc - ratio| then y else acc) ys

/-- `nearest_ratio` (src/app.py lines 116-117).  Python `min` of an empty list
raises; the function is only invoked on the non-empty catalog ratio lists, and
the empty case here carries the junk value 0. -/
def nearest_ratio (ratio : ℝ) (options : List ℝ) : ℝ :=
  match options with
  | [] => 0
  | x :: xs => min_from ratio x xs

/-- One row of the result table built inside `select_propulsion`
(src/app.py lines 171-186). -/
structure ResultRow where
  engine : String
  engine_power_kw : ℝ
  engine_power_hp : ℝ
  engine_rated_rpm : ℤ
  engine_weight_kg : ℤ
  engine_length_mm : ℤ
  gearbox : String
  gear_ratio : ℝ
  target_prop_rpm : ℤ
  achieved_prop_rpm : ℤ
  per_shaft_kw_required : ℝ
  power_margin_pct : ℝ
  price_est_usd : ℤ
  score : ℝ

/-- The row construction of the loop body (src/app.py lines 153-186): the
chosen ratio comes first (line 157), then the divisions of lines 158, 160 and
161 in source order, each raising `ZeroDivisionError` on a zero denominator,
which aborts the whole selection exactly as a Python exception would.  The
ideal ratio is computed once per engine at line 151, before the gearbox loop,
and is passed in (see `rows_for`). -/
def mk_row (spec : BoatSpecs) (per_shaft_kw_req : ℝ) (target_prop_rpm : ℤ)
    (ideal_ratio : ℝ) (e : EngineRecord) (g : GearboxRecord) :
    Except String ResultRow :=
  let engine_kw := e.power_kw
  let engine_rpm := e.rated_rpm
  let chosen_ratio := nearest_ratio ideal_ratio g.ratio_options
  match pyDiv engine_rpm chosen_ratio with
  | Except.error msg => Except.error msg
  | Except.ok achieved_prop_rpm =>
    match pyDiv (engine_kw - per_shaft_kw_req) per_shaft_kw_req with
    | Except.error msg => Except.error msg
    | Except.ok power_margin_pct =>
      match pyDiv |chosen_ratio - ideal_ratio| ideal_ratio with
      | Except.error msg => Except.error msg
      | Except.ok ratio_error =>
        let total_price_est := e.price_usd_est + g.price_usd_est
        let score := 0.55 * min power_margin_pct 1.0 - 0.35 * ratio_error
          - 0.10 * (total_price_est / max spec.budget_usd 1.0)
        Except.ok
          { engine := e.manufacturer ++ " " ++ e.engine_model
            engine_power_kw := pyRound engine_kw 1
            engine_power_hp := pyRound (kw_to_hp engine_kw) 0
            engine_rated_rpm := pyInt engine_rpm
            engine_weight_kg := pyInt e.dry_weight_kg
            engine_length_mm := e.length_mm
            gearbox := g.name
            gear_ratio := chosen_ratio
            target_prop_rpm := target_prop_rpm
            achieved_prop_rpm := round achieved_prop_rpm
            per_shaft_kw_required := pyRound per_shaft_kw_req 1
            power_margin_pct := pyRound (100 * power_margin_pct) 1
            price_est_usd := round total_price_est
            score := score }

/-- The boolean-mask engine filter (src/app.py lines 130-136): row order is
preserved and a record is kept iff all five conditions hold. -/
def engine_filter (fuel : String) (per_shaft_kw_req budget_usd : ℝ)
    (max_len : ℤ) (max_wt : ℝ) : List EngineRecord → List EngineRecord
  | [] => []
  | e :: es =>
    if pyLower e.fuel = pyLower fuel ∧ e.power_kw ≥ per_shaft_kw_req ∧
        e.length_mm ≤ max_len ∧ e.dry_weight_kg ≤ max_wt ∧
        e.price_usd_est ≤ budget_usd then
      e :: engine_filter fuel per_shaft_kw_req budget_usd max_len max_wt es
    else
      engine_filter fuel per_shaft_kw_req budget_usd max_len max_wt es

/-- Inner gearbox loop for one engine (src/app.py lines 153-186): a gearbox is
skipped when `engine_kw > gb_kw_max or engine_rpm > gb_rpm_max`; the first
row-construction error aborts the loop, as a Python exception would. -/
def rows_for_gb (spec : BoatSpecs) (per_shaft_kw_req : ℝ) (target_prop_rpm : ℤ)
    (ideal_ratio : ℝ) (e : EngineRecord) :
    List GearboxRecord → Except String (List ResultRow)
  | [] => Except.ok []
  | g :: gs =>
    if e.power_kw > g.max_input_kw_est ∨ e.rated_rpm > g.max_input_rpm then
      rows_for_gb spec per_shaft_kw_req target_prop_rpm ideal_ratio e gs
    else
      match mk_row spec per_shaft_kw_req target_prop_rpm ideal_ratio e g with
      | Except.error msg => Except.error msg
      | Except.ok row =>
        match rows_for_gb spec per_shaft_kw_req target_prop_rpm ideal_ratio e gs with
        | Except.error msg => Except.error msg
        | Except.ok rest => Except.ok (row :: rest)

/-- Per-engine body (src/app.py lines 148-186): the ideal ratio
`engine_rpm / target_prop_rpm` is computed once per engine at line 151,
before the gearbox loop, and raises `ZeroDivisionError` when the target
propeller RPM is 0. -/
def rows_for (spec : BoatSpecs) (per_shaft_kw_req : ℝ) (target_prop_rpm : ℤ)
    (e : EngineRecord) (gearbox_catalog : List GearboxRecord) :
    Except String (List ResultRow) :=
  match pyDiv e.rated_rpm (target_prop_rpm : ℝ) with
  | Except.error msg => Except.error msg
  | Except.ok ideal_ratio =>
    rows_for_gb spec per_shaft_kw_req target_prop_rpm ideal_ratio e gearbox_catalog

/-- Outer engine loop (src/app.py lines 147-186), collecting the rows in
engine order, gearbox order within an engine; the first error aborts. -/
def pair_rows (spec : BoatSpecs) (per_shaft_kw_req : ℝ) (target_prop_rpm : ℤ)
    (gearbox_catalog : List GearboxRecord) :
    List EngineRecord → Except String (List ResultRow)
  | [] => Except.ok []
  | e :: es =>
    match rows_for spec per_shaft_kw_req target_prop_rpm e gearbox_catalog with
    | Except.error msg => Except.error msg
    | Except.ok rs =>
      match pair_rows spec per_shaft_kw_req target_prop_rpm gearbox_catalog es with
      | Except.error msg => Except.error msg
      | Except.ok rest => Except.ok (rs ++ rest)

/-- Descending insertion step by score. -/
def insert_desc (r : ResultRow) : List ResultRow → List ResultRow
  | [] => [r]
  | x :: xs => if x.score < r.score then r :: x :: xs else x :: insert_desc r xs

/-- Model of `out.sort_values("score", ascending=False)` (src/app.py line 196).
The source's default `kind="quicksort"` guarantees the non-increasing score
order but leaves the relative order of equal scores unspecified; this model
fixes one deterministic choice of that tie order (stable insertion sort). -/
def sort_desc : List ResultRow → List ResultRow
  | [] => []
  | x :: xs => insert_desc x (sort_desc xs)

/-- The three shapes of the returned table: the ranked rows, or one of the two
single-row status tables (src/app.py lines 138-145 and 189-194), kept as
distinct constructors carrying the status fields the source puts in them. -/
inductive SelectOutcome where
  | no_engine_match (status : String) (total_required_kw_est : ℝ)
      (per_shaft_kw_required_with_margin : ℝ) (hint : String)
  | no_gearbox_match (status : String) (hint : String)
  | ranked (rows : List ResultRow)

/-- The tuple returned by `select_propulsion`
(table, total_kw, total_kw_with_margin, per_shaft_kw_req, target_prop_rpm). -/
structure SelectResult where
  outcome : SelectOutcome
  total_kw : ℝ
  total_kw_with_margin : ℝ
  per_shaft_kw_req : ℝ
  target_prop_rpm : ℤ

/-- `select_propulsion` (src/app.py lines 119-197) with the two module-level
catalogs made explicit parameters.  Row-construction errors (the
`ZeroDivisionError` paths inside the pairing loop) propagate to the caller
unchanged, exactly as an uncaught Python exception would.  The per-shaft
division by `shafts` (line 122) is kept as total real division: the UI
constructs every specification with `shafts` drawn from 1-4. -/
def select_propulsion_with (engine_catalog : List EngineRecord)
    (gearbox_catalog : List GearboxRecord) (spec : BoatSpecs) :
    Except String SelectResult :=
  match estimate_total_power_kw spec with
  | Except.error e => Except.error e
  | Except.ok total_kw =>
    let total_kw_with_margin := total_kw * (1.0 + spec.power_margin)
    let per_shaft_kw_req := total_kw_with_margin / (spec.shafts : ℝ)
    let target_prop_rpm := choose_target_prop_rpm spec
    let engines_f := engine_filter spec.fuel per_shaft_kw_req spec.budget_usd
      spec.max_engine_length_mm spec.max_engine_weight_kg engine_catalog
    if engines_f.isEmpty then
      Except.ok
        ⟨SelectOutcome.no_engine_match
          "No engine matches found with current constraints."
          (pyRound total_kw 1) (pyRound per_shaft_kw_req 1)
          "Increase budget/space limits, reduce margin, add more engines to catalog, or lower target speed.",
          total_kw, total_kw_with_margin, per_shaft_kw_req, target_prop_rpm⟩
    else
      match pair_rows spec per_shaft_kw_req target_prop_rpm gearbox_catalog engines_f with
      | Except.error msg => Except.error msg
      | Except.ok rows =>
        if rows.isEmpty then
          Except.ok
            ⟨SelectOutcome.no_gearbox_match
              "Engines matched, but no gearbox matched power/rpm constraints."
              "Add gearbox models to catalog or raise gearbox limits.",
              total_kw, total_kw_with_margin, per_shaft_kw_req, target_prop_rpm⟩
        else
          Except.ok
            ⟨SelectOutcome.ranked (sort_desc rows),
              total_kw, total_kw_with_margin, per_shaft_kw_req, target_prop_rpm⟩

/-- `select_propulsion` over the module-level catalogs (src/app.py line 119). -/
def select_propulsion (spec : BoatSpecs) : Except String SelectResult :=
  select_propulsion_with ENGINE_CATALOG GEARBOX_CATALOG spec

/-- The hull strings accepted by `estimate_total_power_kw` after its
`strip().lower()` normalization (src/app.py lines 87-95). -/
abbrev recognized_hull (h : String) : Prop :=
  h = "displacement" ∨ h = "planing" ∨ h = "semi-displacement" ∨
    h = "semi" ∨ h = "semi displacement"

/-- The hull strings given a class-specific value by `choose_target_prop_rpm`
after its `lower()`-only normalization (src/app.py lines 106-113). -/
abbrev rpm_recognized_hull (h : String) : Prop :=
  h = "displacement" ∨ h = "semi-displacement" ∨ h = "semi" ∨
    h = "semi displacement" ∨ h = "planing"

/-- Discriminator for a normal (non-raising) return of an `Except` computation. -/
def except_ok {α : Type} (x : Except String α) : Bool :=
  match x with
  | Except.ok _ => true
  | Except.error _ => false

/-- A specification with a recognized hull class but non-positive target speed. -/
def spec_c1 : BoatSpecs :=
  { hull_type := "displacement", displacement_tonnes := 25, target_speed_kn := 0,
    shafts := 2 }

/-- A specification whose hull class carries a leading blank. -/
def spec_c10 : BoatSpecs :=
  { hull_type := " planing", displacement_tonnes := 25, target_speed_kn := 15,
    shafts := 2 }

/-- A valid planing specification. -/
def spec_c4 : BoatSpecs :=
  { hull_type := "planing", displacement_tonnes := 25, target_speed_kn := 15,
    shafts := 2 }

/-- A semi-displacement specification at the lower blend speed of 12 knots. -/
def spec_c5 : BoatSpecs :=
  { hull_type := "semi-displacement", displacement_tonnes := 1,
    target_speed_kn := 12, shafts := 1 }

/-- The planing specification with a budget below every catalog engine price. -/
def spec_c8a : BoatSpecs := { spec_c4 with budget_usd := 1000 }

/-- The planing specification with an explicit desired propeller RPM. -/
def spec_c8b : BoatSpecs := { spec_c4 with desired_prop_rpm := some 1000 }

/-- A cheap oversized test engine used with an empty gearbox catalog. -/
def engine_c8 : EngineRecord :=
  ⟨"E1", "M", 1000000, 3000, 500, "diesel", 1000, 500, 500, 50⟩

/-- A planing specification with a non-positive displacement of -1 tonnes. -/
def spec_c1b : BoatSpecs :=
  { hull_type := "planing", displacement_tonnes := -1, target_speed_kn := 15,
    shafts := 2 }

/-- A one-ratio test gearbox for exercising the row builder directly. -/
def gb_c3 : GearboxRecord := ⟨"G1", [2.0], 600, 3500, 1000⟩

/-- The power figure of the planing specification `spec_c4`. -/
def t_c4 : ℝ := hp_to_kw (25 * 2204.62 * ((15 : ℝ) / 185.0) ^ (2 : ℕ))

end

/-- The running minimum is always one of the scanned elements. -/
theorem min_from_mem (r acc : ℝ) (ys : List ℝ) : min_from r acc ys ∈ acc :: ys := by
  induction ys generalizing acc with
  | nil => simp [min_from]
  | cons y ys ih =>
    rw [min_from]
    by_cases hc : |y - r| < |acc - r|
    · rw [if_pos hc]
      have h := ih y
      simp only [List.mem_cons] at h ⊢
      rcases h with h | h
      · exact Or.inr (Or.inl h)
      · exact Or.inr (Or.inr h)
    · rw [if_neg hc]
      have h := ih acc
      simp only [List.mem_cons] at h ⊢
      rcases h with h | h
      · exact Or.inl h
      · exact Or.inr (Or.inr h)

/-- The running minimum has a key no larger than the accumulator's and than
any scanned element's. -/
theorem min_from_le (r acc : ℝ) (ys : List ℝ) :
    |min_from r acc ys - r| ≤ |acc - r| ∧
    ∀ y ∈ ys, |min_from r acc ys - r| ≤ |y - r| := by
  induction ys generalizing acc with
  | nil => exact ⟨le_refl _, by simp⟩
  | cons y ys ih =>
    rw [min_from]
    have h := ih (if |y - r| < |acc - r| then y else acc)
    constructor
    · refine le_trans h.1 ?_
      split
      next hlt => exact le_of_lt hlt
      next => exact le_refl _
    · intro z hz
      simp only [List.mem_cons] at hz
      rcases hz with rfl | hz
      · refine le_trans h.1 ?_
        split
        next => exact le_refl _
        next hnlt => exact le_of_not_lt hnlt
      · exact h.2 z hz

/-- The running minimum sits at a position all of whose predecessors have a
strictly larger key: ties keep the earliest element. -/
theorem min_from_first (r acc : ℝ) (ys : List ℝ) :
    ∃ l₁ l₂, acc :: ys = l₁ ++ min_from r acc ys :: l₂ ∧
      ∀ z ∈ l₁, |min_from r acc ys - r| < |z - r| := by
  induction ys generalizing acc with
  | nil => exact ⟨[], [], rfl, by simp⟩
  | cons y ys ih =>
    rw [min_from]
    by_cases hc : |y - r| < |acc - r|
    · rw [if_pos hc]
      obtain ⟨l₁, l₂, heq, hstrict⟩ := ih y
      refine ⟨acc :: l₁, l₂, ?_, ?_⟩
      · rw [List.cons_append, ← heq]
      · intro z hz
        simp only [List.mem_cons] at hz
        rcases hz with rfl | hz
        · exact lt_of_le_of_lt (min_from_le r y ys).1 hc
        · exact hstrict z hz
    · rw [if_neg hc]
      obtain ⟨l₁, l₂, heq, hstrict⟩ := ih acc
      set m := min_from r acc ys with hm
      cases l₁ with
      | nil =>
        rw [List.nil_append] at heq
        injection heq with h1 h2
        exact ⟨[], y :: ys, by rw [List.nil_append, ← h1], by simp⟩
      | cons a l₁ =>
        rw [List.cons_append] at heq
        injection heq with h1 h2
        refine ⟨acc :: y :: l₁, l₂, ?_, ?_⟩
        · rw [List.cons_append, List.cons_append, h2]
        · intro z hz
          simp only [List.mem_cons] at hz
          rcases hz with rfl | rfl | hz
          · rw [h1]
            exact hstrict a (by simp)
          · refine lt_of_lt_of_le ?_ (le_of_not_lt hc)
            rw [h1]
            exact hstrict a (by simp)
          · exact hstrict z (List.mem_cons_of_mem a hz)

/-- Branch lemma: a hull normalizing to "displacement" selects the admiralty
estimate. -/
theorem estimate_displacement_eq (spec : BoatSpecs)
    (h : pyLower (pyStrip spec.hull_type) = "displacement") :
    estimate_total_power_kw spec =
      Except.ok (hp_to_kw (spec.displacement_tonnes ^ ((2 : ℝ) / 3) *
        spec.target_speed_kn ^ (3 : ℕ) / 130.0)) := by
  simp only [estimate_total_power_kw, h]
  split
  next => rfl
  next hc => exact absurd trivial hc

/-- Branch lemma: a hull normalizing to "planing" selects the Crouch
estimate. -/
theorem estimate_planing_eq (spec : BoatSpecs)
    (h : pyLower (pyStrip spec.hull_type) = "planing") :
    estimate_total_power_kw spec =
      Except.ok (hp_to_kw (spec.displacement_tonnes * 2204.62 *
        (spec.target_speed_kn / 185.0) ^ (2 : ℕ))) := by
  simp only [estimate_total_power_kw, h]
  split
  next hc => exact absurd hc (by decide)
  next => rfl

/-- Branch lemma: a hull normalizing to "semi-displacement" selects the
blended estimate. -/
theorem estimate_semi_eq (spec : BoatSpecs)
    (h : pyLower (pyStrip spec.hull_type) = "semi-displacement") :
    estimate_total_power_kw spec =
      Except.ok (hp_to_kw
        ((1 - blend_t spec.target_speed_kn) *
            (spec.displacement_tonnes ^ ((2 : ℝ) / 3) *
              spec.target_speed_kn ^ (3 : ℕ) / 130.0) +
          blend_t spec.target_speed_kn *
            (spec.displacement_tonnes * 2204.62 *
              (spec.target_speed_kn / 185.0) ^ (2 : ℕ)))) := by
  simp only [estimate_total_power_kw, h]
  split
  next hc => exact absurd hc (by decide)
  next =>
    split
    next hc => exact absurd hc (by decide)
    next =>
      split
      next => rfl
      next hc => exact absurd (Or.inl trivial) hc

/-- The blend factor is never negative. -/
theorem blend_t_nonneg (V : ℝ) : 0 ≤ blend_t V := by
  simp only [blend_t]
  exact le_min (le_trans (by norm_num) (le_max_right _ _)) (by norm_num)

/-- The blend factor never exceeds 1. -/
theorem blend_t_le_one (V : ℝ) : blend_t V ≤ 1 := by
  simp only [blend_t]
  exact le_trans (min_le_right _ _) (by norm_num)

/-- With positive displacement and speed, a successful power estimate is
positive in every hull regime. -/
theorem estimate_pos (spec : BoatSpecs) (t : ℝ)
    (hD : 0 < spec.displacement_tonnes) (hV : 0 < spec.target_speed_kn)
    (h : estimate_total_power_kw spec = Except.ok t) : 0 < t := by
  have hA : 0 < spec.displacement_tonnes ^ ((2 : ℝ) / 3) *
      spec.target_speed_kn ^ (3 : ℕ) / 130.0 := by positivity
  have hB : 0 < spec.displacement_tonnes * 2204.62 *
      (spec.target_speed_kn / 185.0) ^ (2 : ℕ) := by positivity
  simp only [estimate_total_power_kw] at h
  split at h
  · injection h with h'
    subst h'
    exact div_pos hA (by norm_num)
  · split at h
    · injection h with h'
      subst h'
      exact div_pos hB (by norm_num)
    · split at h
      · injection h with h'
        subst h'
        have h0 := blend_t_nonneg spec.target_speed_kn
        have h1 := blend_t_le_one spec.target_speed_kn
        refine div_pos ?_ (by norm_num)
        rcases le_total (spec.displacement_tonnes ^ ((2 : ℝ) / 3) *
            spec.target_speed_kn ^ (3 : ℕ) / 130.0)
          (spec.displacement_tonnes * 2204.62 *
            (spec.target_speed_kn / 185.0) ^ (2 : ℕ)) with hab | hba
        · nlinarith [mul_nonneg h0 (sub_nonneg.mpr hab)]
        · nlinarith [mul_nonneg
            (by linarith : (0 : ℝ) ≤ 1 - blend_t spec.target_speed_kn)
            (sub_nonneg.mpr hba)]
      · exact Except.noConfusion h

/-- The target-RPM heuristic is positive whenever a supplied override is. -/
theorem rpm_pos (spec : BoatSpecs)
    (hdes : ∀ r, spec.desired_prop_rpm = some r → 0 < r) :
    0 < choose_target_prop_rpm spec := by
  cases hd : spec.desired_prop_rpm with
  | some r =>
    have hr := hdes r hd
    simp only [choose_target_prop_rpm, hd]
    exact hr
  | none =>
    simp only [choose_target_prop_rpm, hd]
    split_ifs <;> norm_num

/-- On a non-empty list of nonzero ratios the chosen ratio is nonzero. -/
theorem nearest_ratio_ne_zero (r : ℝ) (options : List ℝ) (hne : options ≠ [])
    (hpos : ∀ x ∈ options, x ≠ 0) : nearest_ratio r options ≠ 0 := by
  cases options with
  | nil => exact absurd rfl hne
  | cons x xs =>
    have hmem : nearest_ratio r (x :: xs) ∈ x :: xs := by
      simp only [nearest_ratio]
      exact min_from_mem r x xs
    exact hpos _ hmem

/-- The engine filter only keeps records of its input list. -/
theorem engine_filter_subset (fuel : String) (req budget : ℝ) (max_len : ℤ)
    (max_wt : ℝ) (l : List EngineRecord) (e : EngineRecord)
    (h : e ∈ engine_filter fuel req budget max_len max_wt l) : e ∈ l := by
  induction l with
  | nil => simp [engine_filter] at h
  | cons a l ih =>
    rw [engine_filter] at h
    split at h
    · rcases List.mem_cons.1 h with rfl | h
      · exact List.mem_cons_self _ _
      · exact List.mem_cons_of_mem _ (ih h)
    · exact List.mem_cons_of_mem _ (ih h)

/-- Every module-catalog engine has a nonzero rated RPM. -/
theorem engine_catalog_rated_ne_zero (e : EngineRecord) (h : e ∈ ENGINE_CATALOG) :
    e.rated_rpm ≠ 0 := by
  fin_cases h <;> norm_num

/-- Every module-catalog gearbox has a non-empty list of nonzero ratios. -/
theorem gearbox_catalog_ratio_facts (g : GearboxRecord) (h : g ∈ GEARBOX_CATALOG) :
    g.ratio_options ≠ [] ∧ ∀ x ∈ g.ratio_options, x ≠ 0 := by
  fin_cases h <;>
    exact ⟨List.cons_ne_nil _ _, by intro x hx; fin_cases hx <;> norm_num⟩

/-- The row builder succeeds when none of its three divisors is zero, and the
built row records the nearest catalog ratio. -/
theorem mk_row_ok (spec : BoatSpecs) (ps : ℝ) (rpm : ℤ) (ideal : ℝ)
    (e : EngineRecord) (g : GearboxRecord)
    (hch : nearest_ratio ideal g.ratio_options ≠ 0)
    (hps : ps ≠ 0) (hideal : ideal ≠ 0) :
    ∃ row, mk_row spec ps rpm ideal e g = Except.ok row ∧
      row.gear_ratio = nearest_ratio ideal g.ratio_options := by
  simp only [mk_row, pyDiv]
  rw [if_neg hch, if_neg hps, if_neg hideal]
  exact ⟨_, rfl, rfl⟩

/-- The row builder raises `ZeroDivisionError` at the margin division
(src/app.py line 160) when the per-shaft requirement is 0. -/
theorem mk_row_err_at_zero_per_shaft (spec : BoatSpecs) (rpm : ℤ) (ideal : ℝ)
    (e : EngineRecord) (g : GearboxRecord)
    (hch : nearest_ratio ideal g.ratio_options ≠ 0) (ps : ℝ) (hps : ps = 0) :
    mk_row spec ps rpm ideal e g =
      Except.error "ZeroDivisionError: float division by zero" := by
  simp only [mk_row, pyDiv]
  rw [if_neg hch, if_pos hps]

/-- The gearbox loop succeeds for any gearbox list with non-empty nonzero
ratio lists, given nonzero per-shaft requirement and ideal ratio. -/
theorem rows_for_gb_ok (spec : BoatSpecs) (ps : ℝ) (rpm : ℤ) (ideal : ℝ)
    (e : EngineRecord) (gbs : List GearboxRecord) (hps : ps ≠ 0)
    (hideal : ideal ≠ 0)
    (hgb : ∀ g ∈ gbs, g.ratio_options ≠ [] ∧ ∀ x ∈ g.ratio_options, x ≠ 0) :
    ∃ rows, rows_for_gb spec ps rpm ideal e gbs = Except.ok rows := by
  induction gbs with
  | nil => exact ⟨[], rfl⟩
  | cons g gs ih =>
    obtain ⟨rows, hrows⟩ := ih (fun g' hg' => hgb g' (List.mem_cons_of_mem _ hg'))
    rw [rows_for_gb]
    split
    · exact ⟨rows, hrows⟩
    · obtain ⟨hne, hz⟩ := hgb g (List.mem_cons_self _ _)
      obtain ⟨row, hrow, _⟩ := mk_row_ok spec ps rpm ideal e g
        (nearest_ratio_ne_zero ideal g.ratio_options hne hz) hps hideal
      rw [hrow, hrows]
      exact ⟨row :: rows, rfl⟩

/-- The per-engine body succeeds when the target RPM, the engine's rated RPM
and the per-shaft requirement are nonzero and the gearboxes are well-formed. -/
theorem rows_for_ok (spec : BoatSpecs) (ps : ℝ) (rpm : ℤ) (e : EngineRecord)
    (gbs : List GearboxRecord) (hps : ps ≠ 0) (hrpm : (rpm : ℝ) ≠ 0)
    (hrated : e.rated_rpm ≠ 0)
    (hgb : ∀ g ∈ gbs, g.ratio_options ≠ [] ∧ ∀ x ∈ g.ratio_options, x ≠ 0) :
    ∃ rows, rows_for spec ps rpm e gbs = Except.ok rows := by
  have h0 : pyDiv e.rated_rpm (rpm : ℝ) = Except.ok (e.rated_rpm / (rpm : ℝ)) := by
    simp only [pyDiv]
    rw [if_neg hrpm]
  simp only [rows_for, h0]
  exact rows_for_gb_ok spec ps rpm _ e gbs hps (div_ne_zero hrated hrpm) hgb

/-- The whole pairing loop succeeds on engines with nonzero rated RPM and
well-formed gearboxes, given nonzero per-shaft requirement and target RPM. -/
theorem pair_rows_ok (spec : BoatSpecs) (ps : ℝ) (rpm : ℤ)
    (gbs : List GearboxRecord) (engines : List EngineRecord)
    (hps : ps ≠ 0) (hrpm : (rpm : ℝ) ≠ 0)
    (hengines : ∀ e ∈ engines, e.rated_rpm ≠ 0)
    (hgb : ∀ g ∈ gbs, g.ratio_options ≠ [] ∧ ∀ x ∈ g.ratio_options, x ≠ 0) :
    ∃ rows, pair_rows spec ps rpm gbs engines = Except.ok rows := by
  induction engines with
  | nil => exact ⟨[], rfl⟩
  | cons e es ih =>
    obtain ⟨rest, hrest⟩ := ih (fun e' he' => hengines e' (List.mem_cons_of_mem _ he'))
    obtain ⟨rs, hrs⟩ := rows_for_ok spec ps rpm e gbs hps hrpm
      (hengines e (List.mem_cons_self _ _)) hgb
    simp only [pair_rows, hrs, hrest]
    exact ⟨rs ++ rest, rfl⟩

/-- C9: `select_propulsion` is a pure function of the specification and the
static catalogs: two calls with identical inputs and unchanged catalogs give
identical outputs. -/
theorem c9_pure_function (ec₁ ec₂ : List EngineRecord)
    (gc₁ gc₂ : List GearboxRecord) (s₁ s₂ : BoatSpecs)
    (he : ec₁ = ec₂) (hg : gc₁ = gc₂) (hs : s₁ = s₂) :
    select_propulsion_with ec₁ gc₁ s₁ = select_propulsion_with ec₂ gc₂ s₂ := by
  rw [he, hg, hs]

/-- Witness for C9 at the module catalogs and a concrete specification. -/
theorem c9_pure_function_witness :
    select_propulsion_with ENGINE_CATALOG GEARBOX_CATALOG spec_c1 =
      select_propulsion_with ENGINE_CATALOG GEARBOX_CATALOG spec_c1 :=
  c9_pure_function ENGINE_CATALOG ENGINE_CATALOG GEARBOX_CATALOG GEARBOX_CATALOG
    spec_c1 spec_c1 rfl rfl rfl

/-- C7: an explicitly supplied desired propeller RPM is returned unchanged by
the target-RPM heuristic, and with no override an unrecognized hull class gets
the neutral default 1000 instead of an error. -/
theorem c7_rpm_override_and_default (spec : BoatSpecs) :
    (∀ r : ℤ, spec.desired_prop_rpm = some r → choose_target_prop_rpm spec = r) ∧
    (spec.desired_prop_rpm = none →
      ¬ rpm_recognized_hull (pyLower spec.hull_type) →
      choose_target_prop_rpm spec = 1000) := by
  constructor
  · intro r h
    simp [choose_target_prop_rpm, h]
  · intro hnone hr
    have h1 : ¬ (pyLower spec.hull_type = "displacement") := fun h => hr (Or.inl h)
    have h2 : ¬ (pyLower spec.hull_type = "semi-displacement" ∨
        pyLower spec.hull_type = "semi" ∨
        pyLower spec.hull_type = "semi displacement") := by
      rintro (h | h | h)
      · exact hr (Or.inr (Or.inl h))
      · exact hr (Or.inr (Or.inr (Or.inl h)))
      · exact hr (Or.inr (Or.inr (Or.inr (Or.inl h))))
    have h3 : ¬ (pyLower spec.hull_type = "planing") := fun h =>
      hr (Or.inr (Or.inr (Or.inr (Or.inr h))))
    simp only [choose_target_prop_rpm, hnone]
    rw [if_neg h1, if_neg h2, if_neg h3]

/-- Witness for C7: the override 1234 wins, and hull class "hovercraft" with no
override yields the default 1000. -/
theorem c7_rpm_override_and_default_witness :
    choose_target_prop_rpm
        { hull_type := "displacement", displacement_tonnes := 25,
          target_speed_kn := 10, shafts := 1,
          desired_prop_rpm := some 1234 } = 1234 ∧
    choose_target_prop_rpm
        { hull_type := "hovercraft", displacement_tonnes := 25,
          target_speed_kn := 10, shafts := 1 } = 1000 :=
  ⟨(c7_rpm_override_and_default _).1 1234 rfl,
   (c7_rpm_override_and_default _).2 rfl (by decide)⟩

/-- C1 counterexample: with hull class "displacement" and target speed 0 the
power estimation returns 0 kW instead of raising; with hull class "planing"
and displacement -1 (≤ 0) the estimation returns a negative power and
`select_propulsion` returns a complete normal result; and at the first input
`select_propulsion` fails only deep in the scoring loop with a
`ZeroDivisionError` from the margin division (src/app.py line 160) — in no
case is an `InvalidInput` raised synchronously before estimation. -/
theorem c1_counterexample_no_validation :
    estimate_total_power_kw spec_c1 = Except.ok 0 ∧
    estimate_total_power_kw spec_c1b =
      Except.ok (hp_to_kw (-1 * 2204.62 * ((15 : ℝ) / 185.0) ^ (2 : ℕ))) ∧
    except_ok (select_propulsion spec_c1b) = true ∧
    select_propulsion spec_c1 =
      Except.error "ZeroDivisionError: float division by zero" := by
  have hh : pyLower (pyStrip spec_c1.hull_type) = "displacement" := by decide
  have hest : estimate_total_power_kw spec_c1 = Except.ok 0 := by
    simp only [estimate_total_power_kw, hh]
    norm_num [spec_c1, hp_to_kw]
  have hestb : estimate_total_power_kw spec_c1b =
      Except.ok (hp_to_kw (-1 * 2204.62 * ((15 : ℝ) / 185.0) ^ (2 : ℕ))) := by
    rw [estimate_planing_eq _ (by decide)]
    norm_num [spec_c1b]
  refine ⟨hest, hestb, ?_, ?_⟩
  · have hrpmb : choose_target_prop_rpm spec_c1b = 1300 := by
      simp only [choose_target_prop_rpm, spec_c1b]
      split
      next h => exact absurd h (by decide)
      next =>
        split
        next h => exact absurd h (by decide)
        next =>
          split
          next => norm_num
          next h => exact absurd (by decide) h
    have hpsb : hp_to_kw (-1 * 2204.62 * ((15 : ℝ) / 185.0) ^ (2 : ℕ)) *
        (1.0 + spec_c1b.power_margin) / (spec_c1b.shafts : ℝ) ≠ 0 := by
      norm_num [spec_c1b, hp_to_kw]
    simp only [select_propulsion, select_propulsion_with, hestb, hrpmb]
    split
    · rfl
    · obtain ⟨rows, hrows⟩ := pair_rows_ok spec_c1b
        (hp_to_kw (-1 * 2204.62 * ((15 : ℝ) / 185.0) ^ (2 : ℕ)) *
          (1.0 + spec_c1b.power_margin) / (spec_c1b.shafts : ℝ))
        1300 GEARBOX_CATALOG
        (engine_filter spec_c1b.fuel
          (hp_to_kw (-1 * 2204.62 * ((15 : ℝ) / 185.0) ^ (2 : ℕ)) *
            (1.0 + spec_c1b.power_margin) / (spec_c1b.shafts : ℝ))
          spec_c1b.budget_usd spec_c1b.max_engine_length_mm
          spec_c1b.max_engine_weight_kg ENGINE_CATALOG)
        hpsb (by norm_num)
        (fun e he => engine_catalog_rated_ne_zero e
          (engine_filter_subset _ _ _ _ _ _ _ he))
        gearbox_catalog_ratio_facts
      simp only [hrows]
      split
      · rfl
      · rfl
  · have hrpm1 : choose_target_prop_rpm spec_c1 = 900 := by
      simp only [choose_target_prop_rpm, spec_c1]
      split
      next => norm_num
      next h => exact absurd (by decide) h
    have hps0 : (0 : ℝ) * (1.0 + spec_c1.power_margin) / (spec_c1.shafts : ℝ) = 0 := by
      norm_num
    have hfilter : engine_filter spec_c1.fuel 0 spec_c1.budget_usd
        spec_c1.max_engine_length_mm spec_c1.max_engine_weight_kg ENGINE_CATALOG =
        ENGINE_CATALOG := by
      norm_num [engine_filter, ENGINE_CATALOG, spec_c1]
    have hch : nearest_ratio ((3500 : ℝ) / ((900 : ℤ) : ℝ))
        [(1.5 : ℝ), 1.75, 2.0, 2.5, 3.0] ≠ 0 := by
      refine nearest_ratio_ne_zero _ _ (List.cons_ne_nil _ _) ?_
      intro x hx
      fin_cases hx <;> norm_num
    have hrow_err : rows_for spec_c1 0 900
        ⟨"D6-480", "Volvo Penta", 353, 3500, 900, "diesel", 1290, 750, 900, 75000⟩
        GEARBOX_CATALOG =
        Except.error "ZeroDivisionError: float division by zero" := by
      have h151 : pyDiv (3500 : ℝ) ((900 : ℤ) : ℝ) =
          Except.ok ((3500 : ℝ) / ((900 : ℤ) : ℝ)) := by
        simp only [pyDiv]
        rw [if_neg (by norm_num)]
      have hmk := mk_row_err_at_zero_per_shaft spec_c1 900
        ((3500 : ℝ) / ((900 : ℤ) : ℝ))
        ⟨"D6-480", "Volvo Penta", 353, 3500, 900, "diesel", 1290, 750, 900, 75000⟩
        ⟨"ZF 45A", [1.5, 1.75, 2.0, 2.5, 3.0], 600, 3500, 18000⟩ hch 0 rfl
      simp only [rows_for, h151, GEARBOX_CATALOG, rows_for_gb]
      rw [if_neg (by norm_num), hmk]
    have hpair_err : pair_rows spec_c1 0 900 GEARBOX_CATALOG ENGINE_CATALOG =
        Except.error "ZeroDivisionError: float division by zero" := by
      simp only [ENGINE_CATALOG, pair_rows, hrow_err]
    simp only [select_propulsion, select_propulsion_with, hest]
    rw [hps0, hrpm1, hfilter, hpair_err]
    simp only [show ENGINE_CATALOG.isEmpty = false from rfl, Bool.false_eq_true,
      if_false]

/-- C1 (amended): the power estimation validates only the hull class: with a
recognized hull class it returns a value for every displacement and speed (no
check of `D ≤ 0` or `V ≤ 0`), and with an unrecognized hull class it raises
the `ValueError`. -/
theorem c1_amended_validation_only_hull (spec : BoatSpecs) :
    (recognized_hull (pyLower (pyStrip spec.hull_type)) →
      ∃ x, estimate_total_power_kw spec = Except.ok x) ∧
    (¬ recognized_hull (pyLower (pyStrip spec.hull_type)) →
      estimate_total_power_kw spec =
        Except.error "hull_type must be: displacement, semi-displacement, or planing") := by
  constructor
  · intro h
    simp only [estimate_total_power_kw]
    rcases h with h | h | h | h | h <;> rw [h] <;> simp
  · intro h
    have h1 : ¬ (pyLower (pyStrip spec.hull_type) = "displacement") := fun hh =>
      h (Or.inl hh)
    have h2 : ¬ (pyLower (pyStrip spec.hull_type) = "planing") := fun hh =>
      h (Or.inr (Or.inl hh))
    have h3 : ¬ (pyLower (pyStrip spec.hull_type) = "semi-displacement" ∨
        pyLower (pyStrip spec.hull_type) = "semi" ∨
        pyLower (pyStrip spec.hull_type) = "semi displacement") := by
      rintro (hh | hh | hh)
      · exact h (Or.inr (Or.inr (Or.inl hh)))
      · exact h (Or.inr (Or.inr (Or.inr (Or.inl hh))))
      · exact h (Or.inr (Or.inr (Or.inr (Or.inr hh))))
    simp only [estimate_total_power_kw]
    rw [if_neg h1, if_neg h2, if_neg h3]

/-- Witness for the amended C1: the hull class "displacement" with `V = 0` is
recognized and the estimate returns a value; "hovercraft" raises. -/
theorem c1_amended_validation_only_hull_witness :
    (∃ x, estimate_total_power_kw spec_c1 = Except.ok x) ∧
    estimate_total_power_kw
        { hull_type := "hovercraft", displacement_tonnes := 25,
          target_speed_kn := 10, shafts := 1 } =
      Except.error "hull_type must be: displacement, semi-displacement, or planing" :=
  ⟨(c1_amended_validation_only_hull spec_c1).1 (by decide),
   (c1_amended_validation_only_hull _).2 (by decide)⟩

/-- C10: the power estimate normalizes the hull class with `strip().lower()`
while the RPM heuristic uses `lower()` only: for hull class " planing" the
selection returns normally using the planing power formula, but the target
propeller RPM is the fallback 1000 instead of the planing value 1300. -/
theorem c10_hull_normalization_mismatch :
    estimate_total_power_kw spec_c10 =
      Except.ok (hp_to_kw (25 * 2204.62 * ((15 : ℝ) / 185) ^ (2 : ℕ))) ∧
    choose_target_prop_rpm spec_c10 = 1000 ∧
    choose_target_prop_rpm { spec_c10 with hull_type := "planing" } = 1300 ∧
    except_ok (select_propulsion spec_c10) = true := by
  have hh : pyLower (pyStrip spec_c10.hull_type) = "planing" := by decide
  have hest : estimate_total_power_kw spec_c10 =
      Except.ok (hp_to_kw (25 * 2204.62 * ((15 : ℝ) / 185) ^ (2 : ℕ))) := by
    simp only [estimate_total_power_kw, hh]
    split
    next h => exact absurd h (by decide)
    next =>
      split
      next => norm_num [spec_c10]
      next h => exact absurd trivial h
  have hrpm10 : choose_target_prop_rpm spec_c10 = 1000 := by
    simp only [choose_target_prop_rpm, spec_c10]
    split
    next h => exact absurd h (by decide)
    next =>
      split
      next h => exact absurd h (by decide)
      next =>
        split
        next h => exact absurd h (by decide)
        next => rfl
  refine ⟨hest, hrpm10, ?_, ?_⟩
  · simp only [choose_target_prop_rpm, spec_c10]
    split
    next h => exact absurd h (by decide)
    next =>
      split
      next h => exact absurd h (by decide)
      next =>
        split
        next => norm_num
        next h => exact absurd (by decide) h
  · have hps10 : hp_to_kw (25 * 2204.62 * ((15 : ℝ) / 185) ^ (2 : ℕ)) *
        (1.0 + spec_c10.power_margin) / (spec_c10.shafts : ℝ) ≠ 0 := by
      norm_num [spec_c10, hp_to_kw]
    simp only [select_propulsion, select_propulsion_with, hest, hrpm10]
    split
    · rfl
    · obtain ⟨rows, hrows⟩ := pair_rows_ok spec_c10
        (hp_to_kw (25 * 2204.62 * ((15 : ℝ) / 185) ^ (2 : ℕ)) *
          (1.0 + spec_c10.power_margin) / (spec_c10.shafts : ℝ))
        1000 GEARBOX_CATALOG
        (engine_filter spec_c10.fuel
          (hp_to_kw (25 * 2204.62 * ((15 : ℝ) / 185) ^ (2 : ℕ)) *
            (1.0 + spec_c10.power_margin) / (spec_c10.shafts : ℝ))
          spec_c10.budget_usd spec_c10.max_engine_length_mm
          spec_c10.max_engine_weight_kg ENGINE_CATALOG)
        hps10 (by norm_num)
        (fun e he => engine_catalog_rated_ne_zero e
          (engine_filter_subset _ _ _ _ _ _ _ he))
        gearbox_catalog_ratio_facts
      simp only [hrows]
      split
      · rfl
      · rfl



/-- C5: for the semi-displacement hull the blended estimate coincides with the
pure displacement estimate at 12 knots and with the pure planing estimate at
30 knots and above, and the blend factor always stays within the interval
from 0 to 1. -/
theorem c5_semi_blend_continuity (spec : BoatSpecs)
    (_hD : 0 < spec.displacement_tonnes)
    (hh : spec.hull_type = "semi-displacement") :
    (spec.target_speed_kn = 12 →
      estimate_total_power_kw spec =
        estimate_total_power_kw { spec with hull_type := "displacement" }) ∧
    (30 ≤ spec.target_speed_kn →
      estimate_total_power_kw spec =
        estimate_total_power_kw { spec with hull_type := "planing" }) ∧
    0 ≤ blend_t spec.target_speed_kn ∧ blend_t spec.target_speed_kn ≤ 1 := by
  have hnorm : pyLower (pyStrip spec.hull_type) = "semi-displacement" := by
    rw [hh]; decide
  have hd : pyLower (pyStrip ("displacement" : String)) = "displacement" := by decide
  have hp : pyLower (pyStrip ("planing" : String)) = "planing" := by decide
  refine ⟨?_, ?_, ?_, ?_⟩
  · intro hV
    rw [estimate_semi_eq spec hnorm, estimate_displacement_eq _ hd]
    dsimp only
    have ht : blend_t spec.target_speed_kn = 0 := by
      rw [hV]; norm_num [blend_t]
    rw [ht, hV]
    norm_num
  · intro hV
    rw [estimate_semi_eq spec hnorm, estimate_planing_eq _ hp]
    dsimp only
    have h1 : (1 : ℝ) ≤ (spec.target_speed_kn - 12) / (30 - 12) := by
      rw [le_div_iff₀ (by norm_num : (0 : ℝ) < 30 - 12)]
      linarith
    have ht : blend_t spec.target_speed_kn = 1 := by
      simp only [blend_t]
      rw [max_eq_left (by linarith), min_eq_right (by linarith)]
      norm_num
    rw [ht]
    norm_num
  · exact blend_t_nonneg _
  · exact blend_t_le_one _

/-- Witness for C5 at the concrete semi-displacement specification with
displacement 1 tonne and target speed 12 knots. -/
theorem c5_semi_blend_continuity_witness :
    (0 : ℝ) < spec_c5.displacement_tonnes ∧
    estimate_total_power_kw spec_c5 =
      estimate_total_power_kw { spec_c5 with hull_type := "displacement" } ∧
    0 ≤ blend_t spec_c5.target_speed_kn ∧ blend_t spec_c5.target_speed_kn ≤ 1 :=
  ⟨by norm_num [spec_c5],
   (c5_semi_blend_continuity spec_c5 (by norm_num [spec_c5]) rfl).1 rfl,
   (c5_semi_blend_continuity spec_c5 (by norm_num [spec_c5]) rfl).2.2.1,
   (c5_semi_blend_continuity spec_c5 (by norm_num [spec_c5]) rfl).2.2.2⟩

/-- C4: for every valid specification (positive displacement, speed and shaft
count, non-negative margin, positive desired RPM when one is supplied) whose
power estimation succeeds, `select_propulsion` returns a result whose figures
satisfy exactly `total_kw_with_margin = total_kw * (1 + power_margin)` and
`per_shaft_kw_req = total_kw_with_margin / shafts`. -/
theorem c4_power_figures (spec : BoatSpecs) (t : ℝ)
    (h : estimate_total_power_kw spec = Except.ok t)
    (hD : 0 < spec.displacement_tonnes) (hV : 0 < spec.target_speed_kn)
    (hS : 0 < spec.shafts) (hM : 0 ≤ spec.power_margin)
    (hdes : ∀ r, spec.desired_prop_rpm = some r → 0 < r) :
    ∃ res : SelectResult, select_propulsion spec = Except.ok res ∧
      res.total_kw = t ∧
      res.total_kw_with_margin = res.total_kw * (1 + spec.power_margin) ∧
      res.per_shaft_kw_req = res.total_kw_with_margin / (spec.shafts : ℝ) := by
  have ht := estimate_pos spec t hD hV h
  have hSr : (0 : ℝ) < (spec.shafts : ℝ) := by exact_mod_cast hS
  have hps : t * (1.0 + spec.power_margin) / (spec.shafts : ℝ) ≠ 0 :=
    ne_of_gt (div_pos (mul_pos ht (by linarith)) hSr)
  have hrpm : ((choose_target_prop_rpm spec : ℤ) : ℝ) ≠ 0 := by
    have := rpm_pos spec hdes
    exact_mod_cast ne_of_gt this
  obtain ⟨rows, hrows⟩ := pair_rows_ok spec
    (t * (1.0 + spec.power_margin) / (spec.shafts : ℝ))
    (choose_target_prop_rpm spec) GEARBOX_CATALOG
    (engine_filter spec.fuel (t * (1.0 + spec.power_margin) / (spec.shafts : ℝ))
      spec.budget_usd spec.max_engine_length_mm spec.max_engine_weight_kg
      ENGINE_CATALOG)
    hps hrpm
    (fun e he => engine_catalog_rated_ne_zero e
      (engine_filter_subset _ _ _ _ _ _ _ he))
    gearbox_catalog_ratio_facts
  simp only [select_propulsion, select_propulsion_with, h]
  split
  · exact ⟨_, rfl, rfl, by norm_num, rfl⟩
  · simp only [hrows]
    split
    · exact ⟨_, rfl, rfl, by norm_num, rfl⟩
    · exact ⟨_, rfl, rfl, by norm_num, rfl⟩

/-- Witness for C4 at the valid planing specification `spec_c4`. -/
theorem c4_power_figures_witness :
    ∃ res : SelectResult, select_propulsion spec_c4 = Except.ok res ∧
      res.total_kw = t_c4 ∧
      res.total_kw_with_margin = res.total_kw * (1 + spec_c4.power_margin) ∧
      res.per_shaft_kw_req = res.total_kw_with_margin / (spec_c4.shafts : ℝ) :=
  c4_power_figures spec_c4 t_c4 (by
      rw [estimate_planing_eq _ (by decide)]
      norm_num [spec_c4, t_c4])
    (by norm_num [spec_c4]) (by norm_num [spec_c4]) (by norm_num [spec_c4])
    (by norm_num [spec_c4]) (by intro r hr; simp [spec_c4] at hr)

/-- C3: every successfully built result row's chosen gear ratio is
`nearest_ratio` applied to the ideal ratio and the gearbox's ratio list, the
ideal ratio the row builder receives is `engine_rated_rpm / target_prop_rpm`
(the division of src/app.py line 151), and on any non-empty ratio list
`nearest_ratio` returns a member of the list that minimizes the absolute
difference to the ideal ratio, where among several minimizers the first one
in catalog order is chosen (every element before the returned position has a
strictly larger difference). -/
theorem c3_nearest_ratio_member_min_first :
    (∀ (spec : BoatSpecs) (ps : ℝ) (rpm : ℤ) (ideal : ℝ) (e : EngineRecord)
        (g : GearboxRecord) (row : ResultRow),
      mk_row spec ps rpm ideal e g = Except.ok row →
      row.gear_ratio = nearest_ratio ideal g.ratio_options) ∧
    (∀ (e : EngineRecord) (rpm : ℤ), (rpm : ℝ) ≠ 0 →
      pyDiv e.rated_rpm (rpm : ℝ) = Except.ok (e.rated_rpm / (rpm : ℝ))) ∧
    ∀ (r x : ℝ) (xs : List ℝ),
      nearest_ratio r (x :: xs) ∈ x :: xs ∧
      (∀ y ∈ x :: xs, |nearest_ratio r (x :: xs) - r| ≤ |y - r|) ∧
      ∃ l₁ l₂, x :: xs = l₁ ++ nearest_ratio r (x :: xs) :: l₂ ∧
        ∀ z ∈ l₁, |nearest_ratio r (x :: xs) - r| < |z - r| := by
  refine ⟨?_, ?_, ?_⟩
  · intro spec ps rpm ideal e g row h
    simp only [mk_row] at h
    split at h
    · exact Except.noConfusion h
    · split at h
      · exact Except.noConfusion h
      · split at h
        · exact Except.noConfusion h
        · injection h with h'
          rw [← h']
  · intro e rpm hrpm
    simp only [pyDiv]
    rw [if_neg hrpm]
  · intro r x xs
    simp only [nearest_ratio]
    refine ⟨min_from_mem r x xs, ?_, min_from_first r x xs⟩
    intro y hy
    simp only [List.mem_cons] at hy
    rcases hy with rfl | hy
    · exact (min_from_le r y xs).1
    · exact (min_from_le r x xs).2 y hy

/-- Witness for C3: a concrete successful row build whose recorded gear ratio
is the nearest catalog ratio, and the concrete ideal-ratio division. -/
theorem c3_nearest_ratio_member_min_first_witness :
    (∃ row : ResultRow, mk_row spec_c4 1 1000 2 engine_c8 gb_c3 = Except.ok row ∧
      row.gear_ratio = nearest_ratio 2 gb_c3.ratio_options) ∧
    pyDiv engine_c8.rated_rpm ((1000 : ℤ) : ℝ) =
      Except.ok (engine_c8.rated_rpm / ((1000 : ℤ) : ℝ)) := by
  constructor
  · have hch : nearest_ratio 2 gb_c3.ratio_options ≠ 0 := by
      refine nearest_ratio_ne_zero 2 gb_c3.ratio_options ?_ ?_
      · simp [gb_c3]
      · intro x hx
        simp [gb_c3] at hx
        rw [hx]
        norm_num
    obtain ⟨row, hrow, _⟩ :=
      mk_row_ok spec_c4 1 1000 2 engine_c8 gb_c3 hch (by norm_num) (by norm_num)
    exact ⟨row, hrow,
      c3_nearest_ratio_member_min_first.1 spec_c4 1 1000 2 engine_c8 gb_c3 row hrow⟩
  · exact c3_nearest_ratio_member_min_first.2.1 engine_c8 1000 (by norm_num)

/-- C6: the engine filter is inclusive on every bound (membership is exactly
the conjunction of the five non-strict comparisons), and tightening the
budget, the length bound, the weight bound, or the required power (in any
combination) never increases the number of engines kept. -/
theorem c6_filter_monotone_inclusive (l : List EngineRecord) (fuel : String)
    (req req' budget budget' : ℝ) (len len' : ℤ) (wt wt' : ℝ) (e : EngineRecord)
    (hreq : req ≤ req') (hb : budget' ≤ budget) (hl : len' ≤ len) (hw : wt' ≤ wt) :
    (engine_filter fuel req' budget' len' wt' l).length ≤
      (engine_filter fuel req budget len wt l).length ∧
    (e ∈ engine_filter fuel req budget len wt l ↔
      e ∈ l ∧ (pyLower e.fuel = pyLower fuel ∧ e.power_kw ≥ req ∧
        e.length_mm ≤ len ∧ e.dry_weight_kg ≤ wt ∧ e.price_usd_est ≤ budget)) := by
  constructor
  · induction l with
    | nil => simp [engine_filter]
    | cons a l ih =>
      rw [engine_filter, engine_filter]
      by_cases hC' : pyLower a.fuel = pyLower fuel ∧ a.power_kw ≥ req' ∧
          a.length_mm ≤ len' ∧ a.dry_weight_kg ≤ wt' ∧ a.price_usd_est ≤ budget'
      · have hC : pyLower a.fuel = pyLower fuel ∧ a.power_kw ≥ req ∧
            a.length_mm ≤ len ∧ a.dry_weight_kg ≤ wt ∧ a.price_usd_est ≤ budget :=
          ⟨hC'.1, le_trans hreq hC'.2.1, le_trans hC'.2.2.1 hl,
            le_trans hC'.2.2.2.1 hw, le_trans hC'.2.2.2.2 hb⟩
        rw [if_pos hC', if_pos hC]
        exact Nat.succ_le_succ ih
      · rw [if_neg hC']
        by_cases hC : pyLower a.fuel = pyLower fuel ∧ a.power_kw ≥ req ∧
            a.length_mm ≤ len ∧ a.dry_weight_kg ≤ wt ∧ a.price_usd_est ≤ budget
        · rw [if_pos hC]
          exact le_trans ih (Nat.le_succ _)
        · rw [if_neg hC]
          exact ih
  · induction l with
    | nil => simp [engine_filter]
    | cons a l ih =>
      rw [engine_filter]
      by_cases hC : pyLower a.fuel = pyLower fuel ∧ a.power_kw ≥ req ∧
          a.length_mm ≤ len ∧ a.dry_weight_kg ≤ wt ∧ a.price_usd_est ≤ budget
      · rw [if_pos hC]
        simp only [List.mem_cons]
        constructor
        · rintro (rfl | h)
          · exact ⟨Or.inl rfl, hC⟩
          · rcases ih.1 h with ⟨h1, h2⟩
            exact ⟨Or.inr h1, h2⟩
        · rintro ⟨rfl | h1, h2⟩
          · exact Or.inl rfl
          · exact Or.inr (ih.2 ⟨h1, h2⟩)
      · rw [if_neg hC]
        constructor
        · intro h
          rcases ih.1 h with ⟨h1, h2⟩
          exact ⟨List.mem_cons_of_mem a h1, h2⟩
        · rintro ⟨h1, h2⟩
          rcases List.mem_cons.1 h1 with rfl | h1
          · exact absurd h2 hC
          · exact ih.2 ⟨h1, h2⟩

/-- Witness for C6: a concrete tightening of all four bounds on the module
catalog, with the inclusivity characterization at the first catalog engine. -/
theorem c6_filter_monotone_inclusive_witness :
    (engine_filter "diesel" 200 80000 1500 1500 ENGINE_CATALOG).length ≤
      (engine_filter "diesel" 100 1e9 (10 ^ 9) (10 ^ 9) ENGINE_CATALOG).length ∧
    (⟨"D6-480", "Volvo Penta", 353, 3500, 900, "diesel", 1290, 750, 900, 75000⟩ ∈
        engine_filter "diesel" 100 1e9 (10 ^ 9) (10 ^ 9) ENGINE_CATALOG ↔
      (⟨"D6-480", "Volvo Penta", 353, 3500, 900, "diesel", 1290, 750, 900,
          75000⟩ : EngineRecord) ∈ ENGINE_CATALOG ∧
        (pyLower "diesel" = pyLower "diesel" ∧ (353 : ℝ) ≥ 100 ∧
          (1290 : ℤ) ≤ 10 ^ 9 ∧ (900 : ℝ) ≤ 10 ^ 9 ∧ (75000 : ℝ) ≤ 1e9)) :=
  c6_filter_monotone_inclusive ENGINE_CATALOG "diesel" 100 200 1e9 80000
    (10 ^ 9) 1500 (10 ^ 9) 1500
    ⟨"D6-480", "Volvo Penta", 353, 3500, 900, "diesel", 1290, 750, 900, 75000⟩
    (by norm_num) (by norm_num) (by norm_num) (by norm_num)

/-- C8: when the power estimation succeeds, an empty engine filter result
yields a normal return carrying the "no engine match" outcome, and a
non-empty filter result whose pairing loop completes without error but with
no surviving (engine, gearbox) pair yields a normal return carrying the
distinct "no gearbox match" outcome; in both cases the computed power figures
and target RPM are still returned. -/
theorem c8_empty_outcomes (ec : List EngineRecord) (gc : List GearboxRecord)
    (spec : BoatSpecs) (t : ℝ)
    (h : estimate_total_power_kw spec = Except.ok t) :
    (engine_filter spec.fuel (t * (1.0 + spec.power_margin) / (spec.shafts : ℝ))
        spec.budget_usd spec.max_engine_length_mm spec.max_engine_weight_kg ec = [] →
      select_propulsion_with ec gc spec = Except.ok
        ⟨SelectOutcome.no_engine_match
            "No engine matches found with current constraints."
            (pyRound t 1)
            (pyRound (t * (1.0 + spec.power_margin) / (spec.shafts : ℝ)) 1)
            "Increase budget/space limits, reduce margin, add more engines to catalog, or lower target speed.",
          t, t * (1.0 + spec.power_margin),
          t * (1.0 + spec.power_margin) / (spec.shafts : ℝ),
          choose_target_prop_rpm spec⟩) ∧
    (engine_filter spec.fuel (t * (1.0 + spec.power_margin) / (spec.shafts : ℝ))
        spec.budget_usd spec.max_engine_length_mm spec.max_engine_weight_kg ec ≠ [] →
      pair_rows spec (t * (1.0 + spec.power_margin) / (spec.shafts : ℝ))
          (choose_target_prop_rpm spec) gc
          (engine_filter spec.fuel
            (t * (1.0 + spec.power_margin) / (spec.shafts : ℝ))
            spec.budget_usd spec.max_engine_length_mm spec.max_engine_weight_kg ec) =
        Except.ok [] →
      select_propulsion_with ec gc spec = Except.ok
        ⟨SelectOutcome.no_gearbox_match
            "Engines matched, but no gearbox matched power/rpm constraints."
            "Add gearbox models to catalog or raise gearbox limits.",
          t, t * (1.0 + spec.power_margin),
          t * (1.0 + spec.power_margin) / (spec.shafts : ℝ),
          choose_target_prop_rpm spec⟩) := by
  constructor
  · intro hf
    simp only [select_propulsion_with, h, hf, List.isEmpty_nil, if_true]
  · intro hf hrows
    obtain ⟨a, l, hcons⟩ := List.exists_cons_of_ne_nil hf
    simp only [select_propulsion_with, h]
    rw [hrows, hcons]
    simp only [List.isEmpty_cons, List.isEmpty_nil, Bool.false_eq_true, if_false, if_true]

/-- Witness for C8: the planing specification with budget 1000 hits the
"no engine match" outcome on the module catalogs, and a passing test engine
with an empty gearbox catalog hits the "no gearbox match" outcome; the power
figures are carried in both results. -/
theorem c8_empty_outcomes_witness :
    select_propulsion_with ENGINE_CATALOG GEARBOX_CATALOG spec_c8a = Except.ok
      ⟨SelectOutcome.no_engine_match
          "No engine matches found with current constraints."
          (pyRound t_c4 1)
          (pyRound (t_c4 * (1.0 + spec_c8a.power_margin) / (spec_c8a.shafts : ℝ)) 1)
          "Increase budget/space limits, reduce margin, add more engines to catalog, or lower target speed.",
        t_c4, t_c4 * (1.0 + spec_c8a.power_margin),
        t_c4 * (1.0 + spec_c8a.power_margin) / (spec_c8a.shafts : ℝ),
        choose_target_prop_rpm spec_c8a⟩ ∧
    select_propulsion_with [engine_c8] [] spec_c8b = Except.ok
      ⟨SelectOutcome.no_gearbox_match
          "Engines matched, but no gearbox matched power/rpm constraints."
          "Add gearbox models to catalog or raise gearbox limits.",
        t_c4, t_c4 * (1.0 + spec_c8b.power_margin),
        t_c4 * (1.0 + spec_c8b.power_margin) / (spec_c8b.shafts : ℝ),
        choose_target_prop_rpm spec_c8b⟩ := by
  have hT1 : estimate_total_power_kw spec_c8a = Except.ok t_c4 := by
    rw [estimate_planing_eq _ (by decide)]
    norm_num [spec_c8a, spec_c4, t_c4]
  have hT2 : estimate_total_power_kw spec_c8b = Except.ok t_c4 := by
    rw [estimate_planing_eq _ (by decide)]
    norm_num [spec_c8b, spec_c4, t_c4]
  have hfilter : engine_filter spec_c8a.fuel
      (t_c4 * (1.0 + spec_c8a.power_margin) / (spec_c8a.shafts : ℝ))
      spec_c8a.budget_usd spec_c8a.max_engine_length_mm
      spec_c8a.max_engine_weight_kg ENGINE_CATALOG = [] := by
    norm_num [engine_filter, ENGINE_CATALOG, spec_c8a, spec_c4, t_c4, hp_to_kw]
  have hfilter2 : engine_filter spec_c8b.fuel
      (t_c4 * (1.0 + spec_c8b.power_margin) / (spec_c8b.shafts : ℝ))
      spec_c8b.budget_usd spec_c8b.max_engine_length_mm
      spec_c8b.max_engine_weight_kg [engine_c8] = [engine_c8] := by
    norm_num [engine_filter, engine_c8, spec_c8b, spec_c4, t_c4, hp_to_kw]
  constructor
  · exact (c8_empty_outcomes ENGINE_CATALOG GEARBOX_CATALOG spec_c8a t_c4 hT1).1 hfilter
  · refine (c8_empty_outcomes [engine_c8] [] spec_c8b t_c4 hT2).2 ?_ ?_
    · rw [hfilter2]
      exact List.cons_ne_nil _ _
    · have hrpm : choose_target_prop_rpm spec_c8b = 1000 := by
        simp [choose_target_prop_rpm, spec_c8b, spec_c4]
      have hdv : pyDiv engine_c8.rated_rpm ((1000 : ℤ) : ℝ) =
          Except.ok (engine_c8.rated_rpm / ((1000 : ℤ) : ℝ)) := by
        simp only [pyDiv]
        rw [if_neg (by norm_num)]
      rw [hfilter2, hrpm]
      simp only [pair_rows, rows_for, hdv, rows_for_gb, List.nil_append]
